import Mathlib

/-!
Shallow embedding of the SVI sample-scheduling script (the scheduling core:
eligibility filter, priority classifier, stable multi-key sort, Tue/Fri
calendar generation with exclusion filtering, and positional date assignment).

Dates are modelled as epoch-day counts (days since 1970-01-01, a Thursday),
matching R `Date` semantics.  `wday` mirrors lubridate's `wday` (Sunday = 1),
and `yearOfDay` is the standard civil-calendar year of an epoch day.
-/

namespace SVI

/-- The `Identifier` column of the scheduler input: derived upstream from the
sample id suffix (`_UIC`, `_UDD`, otherwise `Base`). -/
inductive IdClass where
  | UIC
  | UDD
  | Base
deriving DecidableEq, Repr

/-- The string form of an identifier class, as `paste` sees it in R. -/
def IdClass.str : IdClass → String
  | .UIC => "UIC"
  | .UDD => "UDD"
  | .Base => "Base"

/-- One row of the scheduler input
(`select(Sample ID, proband, Date Received, Identifier, report)`):
`proband` models `proband == 1`, `report` models `report == 1`,
`dateReceived` is the received date as an epoch day. -/
structure SampleRecord where
  sampleId : String
  proband : Bool
  dateReceived : Nat
  identifier : IdClass
  report : Bool
deriving DecidableEq, Repr

/-- Weekday of an epoch day, lubridate convention: 1 = Sunday .. 7 = Saturday.
Day 0 (1970-01-01) is a Thursday, hence the +4 offset. -/
def wday (d : Nat) : Nat := (d + 4) % 7 + 1

/-- Calendar year of an epoch day (civil-from-days, restricted to days ≥ 0). -/
def yearOfDay (d : Nat) : Nat :=
  let z := d + 719468
  let era := z / 146097
  let doe := z % 146097
  let yoe := (doe - doe / 1460 + doe / 36524 - doe / 146096) / 365
  let y := yoe + era * 400
  let doy := doe - (365 * yoe + yoe / 4 - yoe / 100)
  let mp := (5 * doy + 2) / 153
  let m := if mp < 10 then mp + 3 else mp - 9
  if m ≤ 2 then y + 1 else y

/-- First maximal run of digit characters in a character list
(the match of the regex `\\d+`), `none` when no digit occurs. -/
def extractDigits : List Char → Option (List Char)
  | [] => none
  | c :: cs =>
      if c.isDigit then some (c :: cs.takeWhile Char.isDigit)
      else extractDigits cs

/-- Numeric value of a digit string. -/
def digitsToNat (l : List Char) : Nat :=
  l.foldl (fun a c => a * 10 + (c.toNat - 48)) 0

/-- Embeds `as.numeric(str_extract(Sample ID, "\\d+"))`: the number held by
the first digit run of the sample id, `NA` (here `none`) when there is none. -/
def sample_id_num (s : String) : Option Nat :=
  (extractDigits s.data).map digitsToNat

/-- Embeds the `priority_level` `case_when` (first match wins): hot list 0;
UIC 1; UDD received 2025/2024/2023/2022 ↦ 2/3/4/5; Base likewise ↦ 102‥105;
everything else 999. -/
def priority_level (hotlist : List String) (r : SampleRecord) : Nat :=
  let year_received := yearOfDay r.dateReceived
  if r.sampleId ∈ hotlist then 0
  else if r.identifier = .UIC then 1
  else if r.identifier = .UDD ∧ year_received = 2025 then 2
  else if r.identifier = .UDD ∧ year_received = 2024 then 3
  else if r.identifier = .UDD ∧ year_received = 2023 then 4
  else if r.identifier = .UDD ∧ year_received = 2022 then 5
  else if r.identifier = .Base ∧ year_received = 2025 then 102
  else if r.identifier = .Base ∧ year_received = 2024 then 103
  else if r.identifier = .Base ∧ year_received = 2023 then 104
  else if r.identifier = .Base ∧ year_received = 2022 then 105
  else 999

/-- Embeds the `reason_for_priority` `case_when`: priority 0 is the hot-list
label, UIC its fixed label, and everything else `paste(Identifier, year)`. -/
def reason_for_priority (hotlist : List String) (r : SampleRecord) : String :=
  if priority_level hotlist r = 0 then "CRITICAL: Hot List"
  else if r.identifier = .UIC then "Highest Priority: UIC"
  else r.identifier.str ++ " " ++ toString (yearOfDay r.dateReceived)

/-- Encodes an optional numeric key the way `arrange` orders it: present
values ascending, `NA` after every present value. -/
def numKey : Option Nat → Nat × Nat
  | some n => (0, n)
  | none => (1, 0)

/-- The composite `arrange` key of a record:
(priority_level, Date Received, sample_id_num with NA last). -/
def sortKey (hotlist : List String) (r : SampleRecord) : Nat × Nat × Nat × Nat :=
  (priority_level hotlist r, r.dateReceived,
    numKey (sample_id_num r.sampleId))

/-- Lexicographic ≤ on 4-tuples of naturals. -/
def lexLE4 (a b : Nat × Nat × Nat × Nat) : Bool :=
  decide (a.1 < b.1 ∨ (a.1 = b.1 ∧ (a.2.1 < b.2.1 ∨ (a.2.1 = b.2.1 ∧
    (a.2.2.1 < b.2.2.1 ∨ (a.2.2.1 = b.2.2.1 ∧ a.2.2.2 ≤ b.2.2.2))))))

/-- The comparison `arrange(priority_level, Date Received, sample_id_num)`
sorts by. -/
def recLE (hotlist : List String) (a b : SampleRecord) : Bool :=
  lexLE4 (sortKey hotlist a) (sortKey hotlist b)

/-- Embeds `filter(proband == 1, report == 0)`: the eligible records. -/
def eligible (records : List SampleRecord) : List SampleRecord :=
  records.filter (fun r => r.proband && !r.report)

/-- The eligible records after the stable `arrange` by the composite key
(insertion sort with a reflexive total comparison is a stable sort, matching
`arrange`). -/
def prioritized_sorted (hotlist : List String)
    (records : List SampleRecord) : List SampleRecord :=
  (eligible records).insertionSort (fun a b => recLE hotlist a b = true)

/-- One row of `prioritized_list`: the input record plus the derived columns. -/
structure PEntry where
  sample : SampleRecord
  year_received : Nat
  sample_id_num : Option Nat
  priority_level : Nat
  priority_rank : Nat
  reason_for_priority : String
deriving DecidableEq, Repr

/-- Builds the row of `prioritized_list` holding record `r` at (1-based)
row number `rank`. -/
def mkPEntry (hotlist : List String) (rank : Nat) (r : SampleRecord) : PEntry :=
  { sample := r
    year_received := yearOfDay r.dateReceived
    sample_id_num := sample_id_num r.sampleId
    priority_level := priority_level hotlist r
    priority_rank := rank
    reason_for_priority := reason_for_priority hotlist r }

/-- Embeds `prioritized_list`: eligible records with derived columns, sorted
by the composite key, with `priority_rank = row_number()`. -/
def prioritized_list (hotlist : List String)
    (records : List SampleRecord) : List PEntry :=
  (prioritized_sorted hotlist records).enum.map
    (fun p => mkPEntry hotlist (p.1 + 1) p.2)

/-- Embeds `days_to_tuesday = (3 - wday(today) + 7) %% 7; if 0 then 7`. -/
def days_to_tuesday (today : Nat) : Nat :=
  let d := (3 + 7 - wday today) % 7
  if d = 0 then 7 else d

/-- Embeds `days_to_friday = (6 - wday(today) + 7) %% 7; if 0 then 7`. -/
def days_to_friday (today : Nat) : Nat :=
  let d := (6 + 7 - wday today) % 7
  if d = 0 then 7 else d

/-- Embeds `first_meeting = min(today + days_to_tuesday, today + days_to_friday)`. -/
def first_meeting (today : Nat) : Nat :=
  min (today + days_to_tuesday today) (today + days_to_friday today)

/-- Embeds the loop step: `if (wday(d) == 3) d + 3 else d + 4`. -/
def nextMeeting (d : Nat) : Nat :=
  if wday d = 3 then d + 3 else d + 4

/-- The candidate-date loop: `count` successive cadence dates from `first`. -/
def potential_dates : Nat → Nat → List Nat
  | 0, _ => []
  | k + 1, first => first :: potential_dates k (nextMeeting first)

/-- Embeds `final_meeting_dates`: the `num_meetings + 40` candidates starting
from `first_meeting(Sys.Date() - 1)`, with excluded dates filtered out. -/
def final_meeting_dates (runDate : Nat) (exclusions : List Nat)
    (num_meetings : Nat) : List Nat :=
  (potential_dates (num_meetings + 40) (first_meeting (runDate - 1))).filter
    (fun d => d ∉ exclusions)

/-- One row of `final_schedule`: a `prioritized_list` row plus its assigned
`meeting_date`; `none` models R's `NA` from indexing past the end of
`final_meeting_dates`. -/
structure ScheduledEntry where
  entry : PEntry
  meeting_date : Option Nat
deriving DecidableEq, Repr

/-- Embeds `final_schedule = prioritized_list %>%
mutate(meeting_date = final_meeting_dates[1:num_meetings])`: row j (1-based)
receives the j-th filtered date, `NA` when fewer than j dates survived. -/
def final_schedule (hotlist : List String) (records : List SampleRecord)
    (exclusions : List Nat) (runDate : Nat) : List ScheduledEntry :=
  (prioritized_list hotlist records).enum.map
    (fun p => ⟨p.2, (final_meeting_dates runDate exclusions
      (prioritized_list hotlist records).length)[p.1]?⟩)

/-- The reference year of the classifier's four-year window (the source
hard-codes 2025 as the most recent tracked year). -/
def referenceYear : Nat := 2025

/-- Modelled from the claim text for comparison with the source classifier:
first-match-wins rules — hot list ↦ tier 0 with the critical label; UIC ↦
tier 1 with its label; UDD received in year `referenceYear − k`, k ∈ {0,1,2,3}
↦ tier 2+k, reason `"UDD <year>"`; Base in the same window ↦ tier 102+k,
reason `"Base <year>"`; anything else ↦ tier 999 with the class-plus-year
label. -/
def specClassify (hotlist : List String) (r : SampleRecord) : Nat × String :=
  let y := yearOfDay r.dateReceived
  if r.sampleId ∈ hotlist then (0, "CRITICAL: Hot List")
  else if r.identifier = .UIC then (1, "Highest Priority: UIC")
  else if r.identifier = .UDD ∧ referenceYear - 3 ≤ y ∧ y ≤ referenceYear then
    (2 + (referenceYear - y), "UDD " ++ toString y)
  else if r.identifier = .Base ∧ referenceYear - 3 ≤ y ∧ y ≤ referenceYear then
    (102 + (referenceYear - y), "Base " ++ toString y)
  else (999, r.identifier.str ++ " " ++ toString y)

/-- Claim C1: for every sample record, the classifier assigns tier and reason
by first-match-wins rules — hot-list membership gives tier 0 and
"CRITICAL: Hot List" regardless of identifier class or received date;
otherwise UIC gives tier 1 and "Highest Priority: UIC"; otherwise a UDD
record received in year `referenceYear − k`, k ∈ {0,1,2,3}, gets tier 2+k and
reason "UDD <year>"; otherwise a Base record in the same window gets tier
102+k and reason "Base <year>"; any remaining record gets tier 999 with the
class-plus-year label.  Stated as: the source classifier columns agree with
the rule set transcribed from the claim. -/
theorem C1_classifier_first_match_rules (hotlist : List String)
    (r : SampleRecord) :
    (priority_level hotlist r, reason_for_priority hotlist r) =
      specClassify hotlist r := by
  cases hid : r.identifier <;>
  by_cases hm : r.sampleId ∈ hotlist <;>
  by_cases h25 : yearOfDay r.dateReceived = 2025 <;>
  by_cases h24 : yearOfDay r.dateReceived = 2024 <;>
  by_cases h23 : yearOfDay r.dateReceived = 2023 <;>
  by_cases h22 : yearOfDay r.dateReceived = 2022 <;>
  simp_all [priority_level, reason_for_priority, specClassify, referenceYear,
    IdClass.str] <;>
  first
  | omega
  | rw [if_neg (by omega)]

theorem lexLE4_trans (a b c : Nat × Nat × Nat × Nat) :
    lexLE4 a b = true → lexLE4 b c = true → lexLE4 a c = true := by
  simp only [lexLE4, decide_eq_true_eq]
  omega

theorem lexLE4_total (a b : Nat × Nat × Nat × Nat) :
    (lexLE4 a b || lexLE4 b a) = true := by
  simp only [lexLE4, Bool.or_eq_true, decide_eq_true_eq]
  omega

theorem lexLE4_refl (a : Nat × Nat × Nat × Nat) : lexLE4 a a = true := by
  simp [lexLE4]

theorem recLE_trans (hotlist : List String) (a b c : SampleRecord) :
    recLE hotlist a b = true → recLE hotlist b c = true →
    recLE hotlist a c = true :=
  lexLE4_trans _ _ _

theorem recLE_total (hotlist : List String) (a b : SampleRecord) :
    (recLE hotlist a b || recLE hotlist b a) = true :=
  lexLE4_total _ _

/-- Claim C3: the schedule orders eligible records ascending by the composite
key (tier, dateReceived, numeric identifier portion with absent portions
last), the sort is stable, and records tying on all three keys — including
records whose identifier contains no numeric portion — keep their original
ingestion order: the sorted list is a permutation of the eligible list,
pairwise nondecreasing in the composite key, and every key-tied pair that is
a sublist of the eligible list stays a sublist of the sorted list. -/
theorem C3_stable_sort_composite_key (hotlist : List String)
    (records : List SampleRecord) :
    (prioritized_sorted hotlist records).Perm (eligible records) ∧
    (prioritized_sorted hotlist records).Pairwise
      (fun a b => recLE hotlist a b = true) ∧
    (∀ a b : SampleRecord, sortKey hotlist a = sortKey hotlist b →
      [a, b].Sublist (eligible records) →
      [a, b].Sublist (prioritized_sorted hotlist records)) := by
  haveI htr : IsTrans SampleRecord (fun a b => recLE hotlist a b = true) :=
    ⟨fun a b c => recLE_trans hotlist a b c⟩
  haveI hto : IsTotal SampleRecord (fun a b => recLE hotlist a b = true) :=
    ⟨fun a b => by
      have h := recLE_total hotlist a b
      simp only [Bool.or_eq_true] at h
      exact h⟩
  refine ⟨List.perm_insertionSort _ _, List.sorted_insertionSort _ _,
    fun a b hk hsub => ?_⟩
  exact List.pair_sublist_insertionSort
    (by simp only [recLE, hk]; exact lexLE4_refl _) hsub

/-- Concrete instance of C3: two eligible records with identical composite
keys (no digits in either identifier, equal dates, equal tiers) keep their
ingestion order through the sort. -/
theorem C3_stable_sort_composite_key_witness :
    [({ sampleId := "AAA", proband := true, dateReceived := 20000,
        identifier := IdClass.Base, report := false } : SampleRecord),
     ({ sampleId := "AAB", proband := true, dateReceived := 20000,
        identifier := IdClass.Base, report := false } : SampleRecord)].Sublist
      (prioritized_sorted []
        [{ sampleId := "AAA", proband := true, dateReceived := 20000,
           identifier := IdClass.Base, report := false },
         { sampleId := "AAB", proband := true, dateReceived := 20000,
           identifier := IdClass.Base, report := false }]) :=
  (C3_stable_sort_composite_key [] _).2.2 _ _ (by decide) (by decide)

theorem first_meeting_gt (today : Nat) : today < first_meeting today := by
  simp only [first_meeting, days_to_tuesday, days_to_friday, wday]
  split_ifs <;> omega

theorem wday_first_meeting (today : Nat) :
    wday (first_meeting today) = 3 ∨ wday (first_meeting today) = 6 := by
  simp only [first_meeting, days_to_tuesday, days_to_friday, wday]
  split_ifs <;> omega

theorem first_meeting_least (today d : Nat) (h1 : today < d)
    (h2 : d < first_meeting today) : wday d ≠ 3 ∧ wday d ≠ 6 := by
  simp only [first_meeting, days_to_tuesday, days_to_friday, wday] at h2 ⊢
  split_ifs at h2 <;> omega

theorem nextMeeting_of_tuesday (d : Nat) (h : wday d = 3) :
    nextMeeting d = d + 3 := by
  unfold nextMeeting
  rw [if_pos h]

theorem nextMeeting_of_friday (d : Nat) (h : wday d = 6) :
    nextMeeting d = d + 4 := by
  unfold nextMeeting wday at *
  split_ifs <;> omega

/-- Claim C4: the first candidate meeting date is the earliest Tuesday or
Friday strictly after startDate = runDate − 1 (so a startDate that is itself
a Tuesday or Friday is never chosen), it heads the generated candidate list,
and each later candidate advances by 3 days from a Tuesday and 4 days from a
Friday. -/
theorem C4_first_candidate_and_cadence (runDate count : Nat) :
    (potential_dates (count + 40)
        (first_meeting (runDate - 1))).head? =
      some (first_meeting (runDate - 1)) ∧
    runDate - 1 < first_meeting (runDate - 1) ∧
    (wday (first_meeting (runDate - 1)) = 3 ∨
      wday (first_meeting (runDate - 1)) = 6) ∧
    (∀ d : Nat, runDate - 1 < d → d < first_meeting (runDate - 1) →
      wday d ≠ 3 ∧ wday d ≠ 6) ∧
    (∀ d : Nat, wday d = 3 → nextMeeting d = d + 3) ∧
    (∀ d : Nat, wday d = 6 → nextMeeting d = d + 4) :=
  ⟨rfl, first_meeting_gt _, wday_first_meeting _,
    fun d h1 h2 => first_meeting_least _ d h1 h2,
    fun d h => nextMeeting_of_tuesday d h,
    fun d h => nextMeeting_of_friday d h⟩

/-- Concrete instance of C4: run date epoch 20256 gives startDate 20255 (a
Monday), the first candidate is 20256 (a Tuesday), and the cadence steps +3
from that Tuesday and +4 from the following Friday. -/
theorem C4_first_candidate_and_cadence_witness :
    (potential_dates (0 + 40) (first_meeting (20256 - 1))).head? =
      some 20256 ∧
    nextMeeting 20256 = 20256 + 3 ∧
    nextMeeting 20259 = 20259 + 4 :=
  ⟨(C4_first_candidate_and_cadence 20256 0).1.trans (by decide),
    (C4_first_candidate_and_cadence 20256 0).2.2.2.2.1 20256 (by decide),
    (C4_first_candidate_and_cadence 20256 0).2.2.2.2.2 20259 (by decide)⟩

theorem nextMeeting_gt (d : Nat) : d < nextMeeting d := by
  unfold nextMeeting
  split_ifs <;> omega

theorem wday_nextMeeting (d : Nat) (h : wday d = 3 ∨ wday d = 6) :
    wday (nextMeeting d) = 3 ∨ wday (nextMeeting d) = 6 := by
  unfold nextMeeting wday at *
  split_ifs <;> omega

theorem potential_dates_length (n : Nat) : ∀ f : Nat,
    (potential_dates n f).length = n := by
  induction n with
  | zero => intro f; rfl
  | succ k ih => intro f; simp [potential_dates, ih]

theorem potential_dates_lower_bound (n : Nat) : ∀ f x : Nat,
    x ∈ potential_dates n f → f ≤ x := by
  induction n with
  | zero =>
      intro f x hx
      simp [potential_dates] at hx
  | succ k ih =>
      intro f x hx
      simp only [potential_dates, List.mem_cons] at hx
      rcases hx with rfl | hx
      · exact Nat.le_refl x
      · exact Nat.le_of_lt (Nat.lt_of_lt_of_le (nextMeeting_gt f) (ih _ _ hx))

theorem potential_dates_sorted (n : Nat) : ∀ f : Nat,
    (potential_dates n f).Pairwise (fun a b => a < b) := by
  induction n with
  | zero => intro f; simp [potential_dates]
  | succ k ih =>
      intro f
      simp only [potential_dates]
      refine List.Pairwise.cons (fun x hx => ?_) (ih _)
      exact Nat.lt_of_lt_of_le (nextMeeting_gt f)
        (potential_dates_lower_bound _ _ _ hx)

theorem potential_dates_wday (n : Nat) : ∀ f : Nat,
    (wday f = 3 ∨ wday f = 6) →
    ∀ x ∈ potential_dates n f, wday x = 3 ∨ wday x = 6 := by
  induction n with
  | zero =>
      intro f _ x hx
      simp [potential_dates] at hx
  | succ k ih =>
      intro f hf x hx
      simp only [potential_dates, List.mem_cons] at hx
      rcases hx with rfl | hx
      · exact hf
      · exact ih (nextMeeting f) (wday_nextMeeting f hf) x hx

theorem final_meeting_dates_sorted (runDate : Nat) (exclusions : List Nat)
    (n : Nat) :
    (final_meeting_dates runDate exclusions n).Pairwise (fun a b => a < b) :=
  (potential_dates_sorted _ _).filter _

theorem mem_final_meeting_dates (runDate : Nat) (exclusions : List Nat)
    (n d : Nat) (hd : d ∈ final_meeting_dates runDate exclusions n) :
    (wday d = 3 ∨ wday d = 6) ∧ d ∉ exclusions := by
  unfold final_meeting_dates at hd
  rw [List.mem_filter] at hd
  refine ⟨potential_dates_wday _ _ (wday_first_meeting _) d hd.1, ?_⟩
  simpa using hd.2

theorem enum_map_idx {α β : Type} (l : List α) (f : Nat → β) :
    l.enum.map (fun p => f p.1) = (List.range l.length).map f := by
  rw [← List.enum_map_fst l, List.map_map]
  rfl

theorem prioritized_sorted_perm (hotlist : List String)
    (records : List SampleRecord) :
    (prioritized_sorted hotlist records).Perm (eligible records) :=
  List.perm_insertionSort _ _

theorem prioritized_list_length (hotlist : List String)
    (records : List SampleRecord) :
    (prioritized_list hotlist records).length = (eligible records).length := by
  unfold prioritized_list
  rw [List.length_map, List.enum_length]
  exact (prioritized_sorted_perm hotlist records).length_eq

theorem prioritized_list_map_sample (hotlist : List String)
    (records : List SampleRecord) :
    (prioritized_list hotlist records).map (fun e => e.sample) =
      prioritized_sorted hotlist records := by
  unfold prioritized_list
  rw [List.map_map]
  exact List.enum_map_snd _

theorem prioritized_list_map_rank (hotlist : List String)
    (records : List SampleRecord) :
    (prioritized_list hotlist records).map (fun e => e.priority_rank) =
      List.range' 1 (eligible records).length := by
  unfold prioritized_list
  rw [List.map_map]
  have h1 : ((fun e : PEntry => e.priority_rank) ∘
      fun p : Nat × SampleRecord => mkPEntry hotlist (p.1 + 1) p.2) =
      fun p : Nat × SampleRecord => p.1 + 1 := rfl
  rw [h1, enum_map_idx _ (fun i => i + 1), List.range'_eq_map_range,
    (prioritized_sorted_perm hotlist records).length_eq]
  exact List.map_congr_left (fun a _ => Nat.add_comm a 1)

theorem final_schedule_map_entry (hotlist : List String)
    (records : List SampleRecord) (exclusions : List Nat) (runDate : Nat) :
    (final_schedule hotlist records exclusions runDate).map
      (fun e => e.entry) = prioritized_list hotlist records := by
  unfold final_schedule
  rw [List.map_map]
  exact List.enum_map_snd _

theorem final_schedule_map_dates (hotlist : List String)
    (records : List SampleRecord) (exclusions : List Nat) (runDate : Nat) :
    (final_schedule hotlist records exclusions runDate).map
        (fun e => e.meeting_date) =
      (List.range (prioritized_list hotlist records).length).map
        (fun i => (final_meeting_dates runDate exclusions
          (prioritized_list hotlist records).length)[i]?) := by
  unfold final_schedule
  rw [List.map_map]
  have h1 : ((fun e : ScheduledEntry => e.meeting_date) ∘
      fun p : Nat × PEntry =>
        (⟨p.2, (final_meeting_dates runDate exclusions
          (prioritized_list hotlist records).length)[p.1]?⟩ : ScheduledEntry)) =
      fun p : Nat × PEntry => (final_meeting_dates runDate exclusions
        (prioritized_list hotlist records).length)[p.1]? := rfl
  rw [h1]
  exact enum_map_idx _ (fun i => (final_meeting_dates runDate exclusions
    (prioritized_list hotlist records).length)[i]?)

theorem final_schedule_map_sample_perm (hotlist : List String)
    (records : List SampleRecord) (exclusions : List Nat) (runDate : Nat) :
    ((final_schedule hotlist records exclusions runDate).map
      (fun e => e.entry.sample)).Perm (eligible records) := by
  have h1 : (fun e : ScheduledEntry => e.entry.sample) =
      ((fun q : PEntry => q.sample) ∘ fun e : ScheduledEntry => e.entry) := rfl
  rw [h1, ← List.map_map, final_schedule_map_entry,
    prioritized_list_map_sample]
  exact prioritized_sorted_perm hotlist records

/-- Claim C5: on a non-empty eligible set, when enough candidate dates
survive exclusion filtering, every assigned meeting date is defined, falls on
a Tuesday or Friday, is not in the exclusion set, and the assigned dates are
strictly increasing with priority rank (hence pairwise distinct). -/
theorem C5_meeting_date_invariants (hotlist : List String)
    (records : List SampleRecord) (exclusions : List Nat) (runDate : Nat)
    (_hne : eligible records ≠ [])
    (henough : (prioritized_list hotlist records).length ≤
      (final_meeting_dates runDate exclusions
        (prioritized_list hotlist records).length).length) :
    (∀ i d : Nat,
      ((final_schedule hotlist records exclusions runDate).map
        (fun e => e.meeting_date))[i]? = some (some d) →
      (wday d = 3 ∨ wday d = 6) ∧ d ∉ exclusions) ∧
    (∀ i : Nat, i < (prioritized_list hotlist records).length →
      ∃ d : Nat, ((final_schedule hotlist records exclusions runDate).map
        (fun e => e.meeting_date))[i]? = some (some d)) ∧
    (∀ i j di dj : Nat, i < j →
      ((final_schedule hotlist records exclusions runDate).map
        (fun e => e.meeting_date))[i]? = some (some di) →
      ((final_schedule hotlist records exclusions runDate).map
        (fun e => e.meeting_date))[j]? = some (some dj) →
      di < dj) := by
  have hmap := final_schedule_map_dates hotlist records exclusions runDate
  have hkey : ∀ i d : Nat,
      ((final_schedule hotlist records exclusions runDate).map
        (fun e => e.meeting_date))[i]? = some (some d) →
      i < (prioritized_list hotlist records).length ∧
      ∃ hlen : i < (final_meeting_dates runDate exclusions
          (prioritized_list hotlist records).length).length,
        (final_meeting_dates runDate exclusions
          (prioritized_list hotlist records).length).get ⟨i, hlen⟩ = d := by
    intro i d h
    rw [hmap, List.getElem?_map] at h
    have hi : i < (prioritized_list hotlist records).length := by
      by_contra hge
      rw [List.getElem?_eq_none
        (by simpa [List.length_range] using Nat.le_of_not_lt hge)] at h
      simp at h
    rw [List.getElem?_range hi, Option.map_some'] at h
    rw [Option.some.injEq] at h
    rcases List.getElem?_eq_some_iff.mp h with ⟨hlen, hd⟩
    exact ⟨hi, hlen, hd⟩
  refine ⟨fun i d h => ?_, fun i hi => ?_, fun i j di dj hij hi hj => ?_⟩
  · rcases hkey i d h with ⟨_, hlen, hd⟩
    refine mem_final_meeting_dates runDate exclusions
      (prioritized_list hotlist records).length d ?_
    rw [← hd]
    exact List.get_mem _ _ hlen
  · have hlen : i < (final_meeting_dates runDate exclusions
        (prioritized_list hotlist records).length).length :=
      Nat.lt_of_lt_of_le hi henough
    refine ⟨(final_meeting_dates runDate exclusions
        (prioritized_list hotlist records).length).get ⟨i, hlen⟩, ?_⟩
    rw [hmap, List.getElem?_map, List.getElem?_range hi, Option.map_some']
    rw [List.getElem?_eq_getElem hlen]
    rfl
  · rcases hkey i di hi with ⟨_, hleni, hdi⟩
    rcases hkey j dj hj with ⟨_, hlenj, hdj⟩
    rw [← hdi, ← hdj]
    exact List.pairwise_iff_getElem.mp
      (final_meeting_dates_sorted runDate exclusions
        (prioritized_list hotlist records).length) i j hleni hlenj hij

/-- Concrete instance of C5: one eligible record, empty exclusion set, run
date epoch 20256 — the single assigned date is 20256, a Tuesday, not
excluded. -/
theorem C5_meeting_date_invariants_witness :
    (wday 20256 = 3 ∨ wday 20256 = 6) ∧ 20256 ∉ ([] : List Nat) :=
  (C5_meeting_date_invariants []
    [{ sampleId := "MCW_SVI_0001", proband := true, dateReceived := 20000,
       identifier := IdClass.UDD, report := false }] [] 20256
    (by decide) (by decide)).1 0 20256 (by decide)

/-- Claim C6: the schedule has exactly one entry per eligible record (a
record is eligible exactly when its proband flag is true and its reported
flag is false), and the priority ranks over the output are exactly the dense
integers 1..N in order, N the number of eligible records. -/
theorem C6_one_entry_per_eligible_and_dense_ranks (hotlist : List String)
    (records : List SampleRecord) (exclusions : List Nat) (runDate : Nat) :
    ((final_schedule hotlist records exclusions runDate).map
        (fun e => e.entry.sample)).Perm
      (records.filter (fun r => r.proband && !r.report)) ∧
    (final_schedule hotlist records exclusions runDate).map
        (fun e => e.entry.priority_rank) =
      List.range' 1 (records.filter (fun r => r.proband && !r.report)).length := by
  constructor
  · exact final_schedule_map_sample_perm hotlist records exclusions runDate
  · have h1 : (fun e : ScheduledEntry => e.entry.priority_rank) =
        ((fun q : PEntry => q.priority_rank) ∘
          fun e : ScheduledEntry => e.entry) := rfl
    rw [h1, ← List.map_map, final_schedule_map_entry,
      prioritized_list_map_rank]
    rfl

/-- Claim C7: an empty eligible set is not an error — the run completes and
the schedule is empty. -/
theorem C7_empty_eligible_gives_empty_schedule (hotlist : List String)
    (records : List SampleRecord) (exclusions : List Nat) (runDate : Nat)
    (h : records.filter (fun r => r.proband && !r.report) = []) :
    final_schedule hotlist records exclusions runDate = [] := by
  unfold final_schedule prioritized_list prioritized_sorted eligible
  rw [h]
  rfl

/-- Concrete instance of C7: an input with one record that is not a proband
yields an empty schedule without failing. -/
theorem C7_empty_eligible_gives_empty_schedule_witness :
    final_schedule ["X"]
      [{ sampleId := "MCW_SVI_0002", proband := false, dateReceived := 20000,
         identifier := IdClass.Base, report := true }] [20256] 20256 = [] :=
  C7_empty_eligible_gives_empty_schedule ["X"] _ [20256] 20256 (by decide)

theorem length_filter_add (p : Nat → Bool) (l : List Nat) :
    (l.filter p).length + (l.filter (fun a => !(p a))).length = l.length := by
  induction l with
  | nil => rfl
  | cons h t ih => by_cases hp : p h <;> simp [List.filter, hp] <;> omega

/-- Claim C8: the calendar generator produces exactly N + 40 candidate dates
(N the number of eligible records), and whenever at most 40 of those
candidates are excluded, every scheduled entry receives a defined meeting
date — the positional assignment never reads past the filtered date list. -/
theorem C8_buffer_absorbs_forty_exclusions (hotlist : List String)
    (records : List SampleRecord) (exclusions : List Nat) (runDate : Nat) :
    (potential_dates ((eligible records).length + 40)
        (first_meeting (runDate - 1))).length =
      (eligible records).length + 40 ∧
    (((potential_dates ((eligible records).length + 40)
          (first_meeting (runDate - 1))).filter
        (fun d => d ∈ exclusions)).length ≤ 40 →
      ∀ e ∈ final_schedule hotlist records exclusions runDate,
        e.meeting_date.isSome = true) := by
  refine ⟨potential_dates_length _ _, fun hle e he => ?_⟩
  unfold final_schedule at he
  rcases List.mem_map.mp he with ⟨p, hp, rfl⟩
  have hplt : p.1 < (prioritized_list hotlist records).length :=
    List.fst_lt_of_mem_enum hp
  have hdlen : (prioritized_list hotlist records).length ≤
      (final_meeting_dates runDate exclusions
        (prioritized_list hotlist records).length).length := by
    unfold final_meeting_dates
    rw [prioritized_list_length]
    have hsum := length_filter_add (fun d => decide (d ∈ exclusions))
      (potential_dates ((eligible records).length + 40)
        (first_meeting (runDate - 1)))
    rw [potential_dates_length] at hsum
    have heq : ((potential_dates ((eligible records).length + 40)
        (first_meeting (runDate - 1))).filter (fun d => d ∉ exclusions)) =
        ((potential_dates ((eligible records).length + 40)
          (first_meeting (runDate - 1))).filter
            (fun a => !(decide (a ∈ exclusions)))) := by
      simp only [decide_not]
    rw [heq]
    omega
  have hlt : p.1 < (final_meeting_dates runDate exclusions
      (prioritized_list hotlist records).length).length :=
    Nat.lt_of_lt_of_le hplt hdlen
  show ((final_meeting_dates runDate exclusions
    (prioritized_list hotlist records).length)[p.1]?).isSome = true
  rw [List.getElem?_eq_getElem hlt]
  rfl

/-- Concrete instance of C8: one eligible record, one excluded candidate out
of the 41 generated — the single schedule entry still has a defined date. -/
theorem C8_buffer_absorbs_forty_exclusions_witness :
    (⟨mkPEntry []
        1 { sampleId := "MCW_SVI_0001", proband := true, dateReceived := 20000,
            identifier := IdClass.UDD, report := false },
      some 20259⟩ : ScheduledEntry).meeting_date.isSome = true :=
  (C8_buffer_absorbs_forty_exclusions []
    [{ sampleId := "MCW_SVI_0001", proband := true, dateReceived := 20000,
       identifier := IdClass.UDD, report := false }] [20256] 20256).2
    (by decide) _ (by decide)

/-- Claim C9: scheduling leaves each eligible record's original fields
unchanged (the output carries the input records themselves, as a permutation
of the eligible set) and only adds derived fields, each computed from the
unchanged record. -/
theorem C9_original_fields_unchanged (hotlist : List String)
    (records : List SampleRecord) (exclusions : List Nat) (runDate : Nat) :
    ((final_schedule hotlist records exclusions runDate).map
        (fun e => e.entry.sample)).Perm (eligible records) ∧
    (∀ e ∈ final_schedule hotlist records exclusions runDate,
      e.entry.year_received = yearOfDay e.entry.sample.dateReceived ∧
      e.entry.sample_id_num = sample_id_num e.entry.sample.sampleId ∧
      e.entry.priority_level = priority_level hotlist e.entry.sample ∧
      e.entry.reason_for_priority =
        reason_for_priority hotlist e.entry.sample) := by
  refine ⟨final_schedule_map_sample_perm hotlist records exclusions runDate,
    fun e he => ?_⟩
  have hent : e.entry ∈ prioritized_list hotlist records := by
    rw [← final_schedule_map_entry hotlist records exclusions runDate]
    exact List.mem_map_of_mem _ he
  unfold prioritized_list at hent
  rcases List.mem_map.mp hent with ⟨q, _, hq⟩
  rw [← hq]
  exact ⟨rfl, rfl, rfl, rfl⟩

/-- Concrete instance of C9: the single entry scheduled for one eligible
record carries the original record and derived columns computed from it. -/
theorem C9_original_fields_unchanged_witness :
    (⟨mkPEntry []
        1 { sampleId := "MCW_SVI_0001", proband := true, dateReceived := 20000,
            identifier := IdClass.UDD, report := false },
      some 20256⟩ : ScheduledEntry).entry.sample_id_num =
      sample_id_num "MCW_SVI_0001" :=
  (((C9_original_fields_unchanged []
    [{ sampleId := "MCW_SVI_0001", proband := true, dateReceived := 20000,
       identifier := IdClass.UDD, report := false }] [] 20256).2
    _ (by decide)).2).1

/-- Claim C10: the assigned meeting-date sequence depends only on the number
of eligible records, the run date, and the exclusion set — two runs agreeing
on those three produce identical date sequences even with different records
and hot-lists. -/
theorem C10_dates_depend_only_on_count (hl1 hl2 : List String)
    (rs1 rs2 : List SampleRecord) (exclusions : List Nat) (runDate : Nat)
    (h : (eligible rs1).length = (eligible rs2).length) :
    (final_schedule hl1 rs1 exclusions runDate).map
        (fun e => e.meeting_date) =
      (final_schedule hl2 rs2 exclusions runDate).map
        (fun e => e.meeting_date) := by
  rw [final_schedule_map_dates, final_schedule_map_dates,
    prioritized_list_length, prioritized_list_length, h]

/-- Concrete instance of C10: two runs with one eligible record each — the
records and hot-lists differ in every attribute, yet the date sequences
coincide. -/
theorem C10_dates_depend_only_on_count_witness :
    (final_schedule []
        [{ sampleId := "MCW_SVI_0001", proband := true, dateReceived := 20000,
           identifier := IdClass.UDD, report := false }] [20259] 20256).map
        (fun e => e.meeting_date) =
      (final_schedule ["ZZZ"]
        [{ sampleId := "ZZZ", proband := true, dateReceived := 19000,
           identifier := IdClass.Base, report := false },
         { sampleId := "Q", proband := false, dateReceived := 19000,
           identifier := IdClass.UIC, report := false }] [20259] 20256).map
        (fun e => e.meeting_date) :=
  C10_dates_depend_only_on_count [] ["ZZZ"] _ _ [20259] 20256 (by decide)

/-- Claim C2 counterexample: with one eligible record and an exclusion set
containing all 41 generated candidates, the run does not abort — it emits a
one-row schedule whose meeting date is `NA` (R: indexing a Date vector past
its end yields `NA`, and `mutate` accepts it), contradicting the required
fatal error. -/
theorem C2_exhausted_calendar_emits_na_row :
    (final_schedule []
        [{ sampleId := "MCW_SVI_0001", proband := true, dateReceived := 20000,
           identifier := IdClass.UDD, report := false }]
        (potential_dates 41 (first_meeting 20255)) 20256).map
      (fun e => e.meeting_date) = [none] := by
  decide

end SVI
